import Mathlib

/-!
Shallow embedding of the annotation and interaction state engine of `src/App.tsx`
(together with the data model of `src/types.ts`).  JavaScript numbers are modelled
as rationals (`ℚ`); JS arrays as `List`; `undefined`-able fields as `Option`.
All state updates in the source are functional `setX(...)` calls over
component-local state, embedded here as pure functions from the state record to
a new state record.
-/

namespace LuminaApp

/-- `ToolType` enum of `src/types.ts`. -/
inductive ToolType
  | none
  | select
  | pan
  | pen
  | highlight
  | eraser
  | shape
  | text
  | magnify
deriving DecidableEq

/-- `ShapeType` enum of `src/types.ts`. -/
inductive ShapeType
  | rectangle
  | circle
  | line
  | arrow
deriving DecidableEq

/-- A 2-D point as used in the `points` field of an annotation. -/
structure Point where
  x : ℚ
  y : ℚ
deriving DecidableEq

/-- Rectangular bound as used in the `bounds` field of an annotation. -/
structure Bounds where
  x : ℚ
  y : ℚ
  w : ℚ
  h : ℚ
deriving DecidableEq

/-- `Annotation` interface of `src/types.ts`: one drawn object on one page. -/
structure Annotation where
  id : String
  page : ℚ
  type : ToolType
  points : Option (List Point)
  bounds : Option Bounds
  text : Option String
  shapeType : Option ShapeType
  color : String
  lineWidth : ℚ
  opacity : ℚ
  fontFamily : Option String
  fontSize : Option ℚ
deriving DecidableEq

/-- `ToolProperties` interface of `src/types.ts`. -/
structure ToolProperties where
  color : String
  lineWidth : ℚ
  opacity : ℚ
  fontFamily : Option String
  fontSize : Option ℚ
deriving DecidableEq

/-- The component-local state of `App` that the annotation and interaction
engine operates on (`src/App.tsx`, lines 22-29 and 15): edit-mode flag, active
tool, active shape variant, shared tool properties, the undo/redo history of
annotation sets with its cursor, and the zoom scale. -/
structure AppState where
  isEditMode : Bool
  activeTool : ToolType
  activeShape : ShapeType
  toolProperties : ToolProperties
  history : List (List Annotation)
  historyStep : Nat
  scale : ℚ
deriving DecidableEq

/-- The event target classification that `handleKeyDown` makes via
`e.target instanceof HTMLInputElement || e.target instanceof HTMLTextAreaElement`. -/
inductive EventTarget
  | inputElement
  | textAreaElement
  | other
deriving DecidableEq

/-- JavaScript `String.prototype.toLowerCase()`, restricted to the ASCII keys
the dispatcher compares against (characterwise lowering). -/
def toLowerCase (s : String) : String := String.mk (s.data.map Char.toLower)

/-- `e.target instanceof HTMLInputElement || e.target instanceof HTMLTextAreaElement`. -/
def isTextEntryTarget : EventTarget → Bool
  | EventTarget.inputElement => true
  | EventTarget.textAreaElement => true
  | EventTarget.other => false

/-- The fields of a DOM `KeyboardEvent` that `handleKeyDown` reads. -/
structure KeyboardEvent where
  key : String
  ctrlKey : Bool
  metaKey : Bool
  shiftKey : Bool
  target : EventTarget
deriving DecidableEq

/-- `currentAnnotations = history[historyStep]` (src/App.tsx line 30).
Out-of-range indexing (never reached from a state satisfying the history
invariant) defaults to the empty set. -/
def currentAnnotations (history : List (List Annotation)) (step : Nat) :
    List Annotation :=
  history.getD step []

/-- `handleAnnotationsChange` (src/App.tsx lines 80-86): applies `updateFn` to
the current annotation set, truncates the history to `[0, step]`
(`history.slice(0, historyStep + 1)`), pushes the new set and moves the cursor
to the new tail (`newHistory.length - 1`).  Returns the new `(history, step)`. -/
def handleAnnotationsChange (history : List (List Annotation)) (step : Nat)
    (updateFn : List Annotation → List Annotation) :
    List (List Annotation) × Nat :=
  let newAnnotations := updateFn (currentAnnotations history step)
  let newHistory := history.take (step + 1) ++ [newAnnotations]
  (newHistory, newHistory.length - 1)

/-- `handleUndo` (src/App.tsx line 88): `if (historyStep > 0) setHistoryStep(prev => prev - 1)`.
Returns the new cursor. -/
def handleUndo (history : List (List Annotation)) (step : Nat) : Nat :=
  if 0 < step then step - 1 else step

/-- `handleRedo` (src/App.tsx line 89):
`if (historyStep < history.length - 1) setHistoryStep(prev => prev + 1)`.
The JS comparison is over numbers, so the bound `history.length - 1` is taken
in `ℤ`.  Returns the new cursor. -/
def handleRedo (history : List (List Annotation)) (step : Nat) : Nat :=
  if (step : ℤ) < (history.length : ℤ) - 1 then step + 1 else step

/-- `toggleEditMode` (src/App.tsx line 234):
`() => { setIsEditMode(!isEditMode); setActiveTool(isEditMode ? ToolType.SELECT : ToolType.PAN); }`.
Both setters read the pre-toggle `isEditMode` captured by the closure. -/
def toggleEditMode (s : AppState) : AppState :=
  { s with
    isEditMode := !s.isEditMode
    activeTool := if s.isEditMode then ToolType.select else ToolType.pan }

/-- The `switch (e.key.toLowerCase())` block of `handleKeyDown`
(src/App.tsx lines 165-177), reached only in edit mode with focus outside
text-entry elements. -/
def handleToolKey (s : AppState) (key : String) : AppState :=
  match key with
  | "v" => { s with activeTool := ToolType.select }
  | "p" => { s with activeTool := ToolType.pen }
  | "h" => { s with activeTool := ToolType.highlight }
  | "e" => { s with activeTool := ToolType.eraser }
  | "t" => { s with activeTool := ToolType.text }
  | "r" => { s with activeTool := ToolType.shape, activeShape := ShapeType.rectangle }
  | "c" => { s with activeTool := ToolType.shape, activeShape := ShapeType.circle }
  | "l" => { s with activeTool := ToolType.shape, activeShape := ShapeType.line }
  | "a" => { s with activeTool := ToolType.shape, activeShape := ShapeType.arrow }
  | "[" => { s with toolProperties :=
      { s.toolProperties with lineWidth := max 1 (s.toolProperties.lineWidth - 1) } }
  | "]" => { s with toolProperties :=
      { s.toolProperties with lineWidth := min 100 (s.toolProperties.lineWidth + 1) } }
  | _ => s

/-- `handleKeyDown` (src/App.tsx lines 142-178).  Each guarded branch of the
source `return`s immediately, giving the nested-`if` precedence below.
`Math.min`/`Math.max` become `min`/`max` on `ℚ`; the literals `0.1`, `0.25`,
`4.0` become `1/10`, `1/4`, `4`. -/
def handleKeyDown (s : AppState) (e : KeyboardEvent) : AppState :=
  if (e.ctrlKey || e.metaKey) && e.key == "z" then
    if e.shiftKey then { s with historyStep := handleRedo s.history s.historyStep }
    else { s with historyStep := handleUndo s.history s.historyStep }
  else if (e.ctrlKey || e.metaKey) && e.key == "y" then
    { s with historyStep := handleRedo s.history s.historyStep }
  else if (e.ctrlKey || e.metaKey) && (e.key == "=" || e.key == "+") then
    { s with scale := min 4 (s.scale + 1/10) }
  else if (e.ctrlKey || e.metaKey) && e.key == "-" then
    { s with scale := max (1/4) (s.scale - 1/10) }
  else if toLowerCase e.key == "m" && !e.ctrlKey && !e.metaKey
      && !(isTextEntryTarget e.target) then
    { s with activeTool :=
        if s.activeTool = ToolType.magnify then
          (if s.isEditMode then ToolType.select else ToolType.pan)
        else ToolType.magnify }
  else if !s.isEditMode then s
  else if isTextEntryTarget e.target then s
  else handleToolKey s (toLowerCase e.key)

/-- `handleWheel` (src/App.tsx lines 183-189):
with the primary modifier held, `scale := min(4.0, max(0.25, scale + (-deltaY)*0.001))`. -/
def handleWheel (s : AppState) (ctrlKey metaKey : Bool) (deltaY : ℚ) : AppState :=
  if ctrlKey || metaKey then
    { s with scale := min 4 (max (1/4) (s.scale + (-deltaY) * (1/1000))) }
  else s

/-- An input event reaching the engine: a key-down or a wheel gesture. -/
inductive InputEvent
  | key (e : KeyboardEvent)
  | wheel (ctrlKey metaKey : Bool) (deltaY : ℚ)

/-- Dispatch of one input event on the app state. -/
def applyEvent (s : AppState) : InputEvent → AppState
  | InputEvent.key e => handleKeyDown s e
  | InputEvent.wheel c m d => handleWheel s c m d

/-- Initial tool properties of the app (src/App.tsx lines 25-27). -/
def initialProperties : ToolProperties :=
  { color := "#ef4444", lineWidth := 2, opacity := 1,
    fontFamily := some "Inter", fontSize := some 16 }

/-- The state the app mounts with (src/App.tsx lines 15, 22-29): view mode,
`pan` tool, rectangle shape, default properties, history `[[]]` at step 0,
scale 1. -/
def initialState : AppState :=
  { isEditMode := false
    activeTool := ToolType.pan
    activeShape := ShapeType.rectangle
    toolProperties := initialProperties
    history := [[]]
    historyStep := 0
    scale := 1 }

/-- Convenience constructor for concrete keyboard events. -/
def keyEvent (k : String) (c m sh : Bool) (t : EventTarget) : KeyboardEvent :=
  { key := k, ctrlKey := c, metaKey := m, shiftKey := sh, target := t }

/-- The mount state with the pen tool selected. -/
def penState : AppState := { initialState with activeTool := ToolType.pen }

/-- The mount state with edit mode switched on. -/
def editState : AppState := { initialState with isEditMode := true }

/-! ## Helper lemmas -/

/-- No branch of the keyboard dispatcher ever touches the snapshot sequence:
undo/redo only move the cursor, the other branches change tool, shape,
properties or scale. -/
theorem handleToolKey_history (s : AppState) (k : String) :
    (handleToolKey s k).history = s.history := by
  unfold handleToolKey
  split <;> rfl

theorem handleKeyDown_preserves_history (s : AppState) (e : KeyboardEvent) :
    (handleKeyDown s e).history = s.history := by
  unfold handleKeyDown
  split_ifs <;> first | rfl | exact handleToolKey_history s (toLowerCase e.key)

theorem toLowerCase_m : toLowerCase "m" = "m" := rfl

theorem toLowerCase_v : toLowerCase "v" = "v" := rfl

theorem toLowerCase_p : toLowerCase "p" = "p" := rfl

theorem toLowerCase_h : toLowerCase "h" = "h" := rfl

theorem toLowerCase_e : toLowerCase "e" = "e" := rfl

theorem toLowerCase_t : toLowerCase "t" = "t" := rfl

theorem toLowerCase_r : toLowerCase "r" = "r" := rfl

theorem toLowerCase_c : toLowerCase "c" = "c" := rfl

theorem toLowerCase_l : toLowerCase "l" = "l" := rfl

theorem toLowerCase_a : toLowerCase "a" = "a" := rfl

theorem toLowerCase_lbracket : toLowerCase "[" = "[" := rfl

theorem toLowerCase_rbracket : toLowerCase "]" = "]" := rfl

/-- The tool-switch block never touches the zoom scale. -/
theorem handleToolKey_scale (s : AppState) (k : String) :
    (handleToolKey s k).scale = s.scale := by
  unfold handleToolKey
  split <;> rfl

/-- The discrete zoom-in update stays inside the clamp interval. -/
theorem zoomIn_clamp (q : ℚ) (h1 : 1/4 ≤ q) :
    1/4 ≤ min 4 (q + 1/10) ∧ min 4 (q + 1/10) ≤ 4 :=
  ⟨le_min (by norm_num) (h1.trans (le_add_of_nonneg_right (by norm_num))),
   min_le_left _ _⟩

/-- The discrete zoom-out update stays inside the clamp interval. -/
theorem zoomOut_clamp (q : ℚ) (h2 : q ≤ 4) :
    1/4 ≤ max (1/4) (q - 1/10) ∧ max (1/4) (q - 1/10) ≤ 4 :=
  ⟨le_max_left _ _, max_le (by norm_num) ((sub_le_self q (by norm_num)).trans h2)⟩

/-- The two-sided wheel-zoom clamp lands inside the interval for any delta. -/
theorem wheelZoom_clamp (q d : ℚ) :
    1/4 ≤ min 4 (max (1/4) (q + d)) ∧ min 4 (max (1/4) (q + d)) ≤ 4 :=
  ⟨le_min (by norm_num) (le_max_left _ _), min_le_left _ _⟩

/-- One key-down preserves the scale clamp `[1/4, 4]`. -/
theorem handleKeyDown_scale_bounds (s : AppState) (e : KeyboardEvent)
    (h1 : 1/4 ≤ s.scale) (h2 : s.scale ≤ 4) :
    1/4 ≤ (handleKeyDown s e).scale ∧ (handleKeyDown s e).scale ≤ 4 := by
  unfold handleKeyDown
  split_ifs <;>
    first
      | exact ⟨h1, h2⟩
      | exact zoomIn_clamp s.scale h1
      | exact zoomOut_clamp s.scale h2
      | (rw [handleToolKey_scale]; exact ⟨h1, h2⟩)

/-- One wheel gesture preserves the scale clamp `[1/4, 4]`. -/
theorem handleWheel_scale_bounds (s : AppState) (c m : Bool) (d : ℚ)
    (h1 : 1/4 ≤ s.scale) (h2 : s.scale ≤ 4) :
    1/4 ≤ (handleWheel s c m d).scale ∧ (handleWheel s c m d).scale ≤ 4 := by
  unfold handleWheel
  split_ifs
  · exact wheelZoom_clamp s.scale ((-d) * (1/1000))
  · exact ⟨h1, h2⟩

/-- One input event preserves the scale clamp `[1/4, 4]`. -/
theorem applyEvent_scale_bounds (s : AppState) (ev : InputEvent)
    (h1 : 1/4 ≤ s.scale) (h2 : s.scale ≤ 4) :
    1/4 ≤ (applyEvent s ev).scale ∧ (applyEvent s ev).scale ≤ 4 := by
  cases ev with
  | key e => exact handleKeyDown_scale_bounds s e h1 h2
  | wheel c m d => exact handleWheel_scale_bounds s c m d h1 h2

/-- The line-width decrement clamp stays inside `[1, 100]`. -/
theorem widthDec_clamp (q : ℚ) (h2 : q ≤ 100) :
    1 ≤ max 1 (q - 1) ∧ max 1 (q - 1) ≤ 100 :=
  ⟨le_max_left _ _, max_le (by norm_num) ((sub_le_self q (by norm_num)).trans h2)⟩

/-- The line-width increment clamp stays inside `[1, 100]`. -/
theorem widthInc_clamp (q : ℚ) (h1 : 1 ≤ q) :
    1 ≤ min 100 (q + 1) ∧ min 100 (q + 1) ≤ 100 :=
  ⟨le_min (by norm_num) (h1.trans (le_add_of_nonneg_right (by norm_num))),
   min_le_left _ _⟩

/-- The tool-switch block keeps the line width inside `[1, 100]`: the only two
arms that touch it clamp at the point of mutation. -/
theorem handleToolKey_lineWidth_bounds (s : AppState) (k : String)
    (h1 : 1 ≤ s.toolProperties.lineWidth) (h2 : s.toolProperties.lineWidth ≤ 100) :
    1 ≤ (handleToolKey s k).toolProperties.lineWidth ∧
      (handleToolKey s k).toolProperties.lineWidth ≤ 100 := by
  unfold handleToolKey
  split <;>
    first
      | exact ⟨h1, h2⟩
      | exact widthDec_clamp s.toolProperties.lineWidth h2
      | exact widthInc_clamp s.toolProperties.lineWidth h1

/-- One key-down keeps the line width inside `[1, 100]`. -/
theorem handleKeyDown_lineWidth_bounds (s : AppState) (e : KeyboardEvent)
    (h1 : 1 ≤ s.toolProperties.lineWidth) (h2 : s.toolProperties.lineWidth ≤ 100) :
    1 ≤ (handleKeyDown s e).toolProperties.lineWidth ∧
      (handleKeyDown s e).toolProperties.lineWidth ≤ 100 := by
  unfold handleKeyDown
  split_ifs <;>
    first
      | exact ⟨h1, h2⟩
      | exact handleToolKey_lineWidth_bounds s (toLowerCase e.key) h1 h2

/-- One input event keeps the line width inside `[1, 100]` (the wheel handler
never touches the tool properties). -/
theorem applyEvent_lineWidth_bounds (s : AppState) (ev : InputEvent)
    (h1 : 1 ≤ s.toolProperties.lineWidth) (h2 : s.toolProperties.lineWidth ≤ 100) :
    1 ≤ (applyEvent s ev).toolProperties.lineWidth ∧
      (applyEvent s ev).toolProperties.lineWidth ≤ 100 := by
  cases ev with
  | key e => exact handleKeyDown_lineWidth_bounds s e h1 h2
  | wheel c m d =>
      show 1 ≤ (handleWheel s c m d).toolProperties.lineWidth ∧
        (handleWheel s c m d).toolProperties.lineWidth ≤ 100
      unfold handleWheel
      split_ifs <;> exact ⟨h1, h2⟩

/-! ## Claim theorems -/

/-- C1: the claim says entering edit mode (isEditMode false → true) yields
`activeTool = select` and leaving yields `pan`.  Evaluating `toggleEditMode`
shows the code does the opposite: both setters in
`() => { setIsEditMode(!isEditMode); setActiveTool(isEditMode ? SELECT : PAN) }`
read the stale pre-toggle `isEditMode`, so entering edit mode from the mount
state leaves the user on `pan` while edit mode is on, and leaving edit mode
sets `select` — contradicting the magnify fallback on line 158 of the same
file, which associates edit mode with `select`. -/
theorem C1_toggleEditMode_evaluation :
    (toggleEditMode initialState).isEditMode = true ∧
    (toggleEditMode initialState).activeTool = ToolType.pan ∧
    (toggleEditMode
        { initialState with isEditMode := true, activeTool := ToolType.pen }).isEditMode
      = false ∧
    (toggleEditMode
        { initialState with isEditMode := true, activeTool := ToolType.pen }).activeTool
      = ToolType.select :=
  ⟨rfl, rfl, rfl, rfl⟩

/-- C2: for any history state with `step < length`, a commit truncates the
sequence to indices `[0, step]`, appends the new set, and moves the cursor to
the new tail; immediately afterwards `redo` is a no-op and the current set is
exactly the committed one. -/
theorem C2_commit_truncates_appends_tail
    (history : List (List Annotation)) (step : Nat)
    (f : List Annotation → List Annotation)
    (hstep : step < history.length) :
    (handleAnnotationsChange history step f).1
      = history.take (step + 1) ++ [f (currentAnnotations history step)] ∧
    (handleAnnotationsChange history step f).1.length = step + 2 ∧
    (handleAnnotationsChange history step f).2 = step + 1 ∧
    handleRedo (handleAnnotationsChange history step f).1
        (handleAnnotationsChange history step f).2
      = (handleAnnotationsChange history step f).2 ∧
    currentAnnotations (handleAnnotationsChange history step f).1
        (handleAnnotationsChange history step f).2
      = f (currentAnnotations history step) := by
  have htake : (history.take (step + 1)).length = step + 1 := by
    rw [List.length_take]
    omega
  have h1 : (handleAnnotationsChange history step f).1
      = history.take (step + 1) ++ [f (currentAnnotations history step)] := rfl
  have hlen : (handleAnnotationsChange history step f).1.length = step + 2 := by
    rw [h1, List.length_append, htake]
    rfl
  have h2 : (handleAnnotationsChange history step f).2 = step + 1 := by
    show (handleAnnotationsChange history step f).1.length - 1 = step + 1
    rw [hlen]
    omega
  refine ⟨h1, hlen, h2, ?_, ?_⟩
  · rw [h2]
    unfold handleRedo
    rw [hlen]
    split_ifs with h
    · omega
    · rfl
  · rw [h1, h2]
    unfold currentAnnotations
    rw [List.getD_append_right _ _ _ _ (by rw [htake]), htake]
    simp

/-- C3: `undo` is a no-op at `step = 0` and otherwise decrements the cursor;
`redo` is a no-op at the tail and otherwise increments it; both keep the
cursor inside the sequence, and no keyboard dispatch ever modifies the
snapshot sequence itself.  (Both handlers are total functions, so "never
throws" holds by construction.) -/
theorem C3_undo_redo_noop_at_bounds
    (history : List (List Annotation)) (step : Nat)
    (hstep : step < history.length) :
    (step = 0 → handleUndo history step = 0) ∧
    (0 < step → handleUndo history step = step - 1) ∧
    (step = history.length - 1 → handleRedo history step = step) ∧
    (step < history.length - 1 → handleRedo history step = step + 1) ∧
    handleUndo history step < history.length ∧
    handleRedo history step < history.length ∧
    (∀ (s : AppState) (e : KeyboardEvent), (handleKeyDown s e).history = s.history) := by
  refine ⟨?_, ?_, ?_, ?_, ?_, ?_, handleKeyDown_preserves_history⟩
  · intro h
    unfold handleUndo
    split_ifs <;> omega
  · intro h
    unfold handleUndo
    split_ifs <;> omega
  · intro h
    unfold handleRedo
    split_ifs <;> omega
  · intro h
    unfold handleRedo
    split_ifs <;> omega
  · unfold handleUndo
    split_ifs <;> omega
  · unfold handleRedo
    split_ifs <;> omega

/-- C4: from any history state with `0 < step < length`, `undo` followed by
`redo` (no intervening commit) returns the cursor to `step`, hence restores
the exact `current()` value observable before the undo. -/
theorem C4_undo_redo_roundtrip
    (history : List (List Annotation)) (step : Nat)
    (hpos : 0 < step) (hstep : step < history.length) :
    handleRedo history (handleUndo history step) = step ∧
    currentAnnotations history (handleRedo history (handleUndo history step))
      = currentAnnotations history step := by
  have h1 : handleUndo history step = step - 1 := by
    unfold handleUndo
    split_ifs <;> omega
  have h2 : handleRedo history (step - 1) = step := by
    unfold handleRedo
    split_ifs with h <;> omega
  rw [h1, h2]
  exact ⟨rfl, rfl⟩

/-- C5: an unqualified `m` key-down (no ctrl/meta, focus outside text-entry
elements) toggles magnify: from any non-magnify tool it activates `magnify`
regardless of edit mode; from `magnify` it falls back to `select` when edit
mode is on and `pan` when it is off. -/
theorem C5_magnify_toggle
    (s : AppState) (e : KeyboardEvent)
    (hkey : e.key = "m") (hctrl : e.ctrlKey = false) (hmeta : e.metaKey = false)
    (htarget : isTextEntryTarget e.target = false) :
    (handleKeyDown s e).activeTool
      = (if s.activeTool = ToolType.magnify then
           (if s.isEditMode then ToolType.select else ToolType.pan)
         else ToolType.magnify) ∧
    (s.activeTool ≠ ToolType.magnify →
        (handleKeyDown s e).activeTool = ToolType.magnify) ∧
    (s.activeTool = ToolType.magnify → s.isEditMode = true →
        (handleKeyDown s e).activeTool = ToolType.select) ∧
    (s.activeTool = ToolType.magnify → s.isEditMode = false →
        (handleKeyDown s e).activeTool = ToolType.pan) := by
  have hmain : (handleKeyDown s e).activeTool
      = (if s.activeTool = ToolType.magnify then
           (if s.isEditMode then ToolType.select else ToolType.pan)
         else ToolType.magnify) := by
    unfold handleKeyDown
    rw [hkey, hctrl, hmeta, htarget, toLowerCase_m]
    simp
  refine ⟨hmain, ?_, ?_, ?_⟩
  · intro h
    rw [hmain, if_neg h]
  · intro h h2
    rw [hmain, if_pos h, h2]
    simp
  · intro h h2
    rw [hmain, if_pos h, h2]
    simp

/-- C6: with the primary modifier (ctrl or meta) held, key `z` dispatches undo,
or redo when shift is also held, and key `y` dispatches redo; in each case the
resulting state differs from the input state only in the history cursor, so
exactly one operation fires and no later-precedence branch runs. -/
theorem C6_modifier_undo_redo_precedence
    (s : AppState) (e : KeyboardEvent)
    (hmod : e.ctrlKey = true ∨ e.metaKey = true) :
    (e.key = "z" → e.shiftKey = false →
        handleKeyDown s e
          = { s with historyStep := handleUndo s.history s.historyStep }) ∧
    (e.key = "z" → e.shiftKey = true →
        handleKeyDown s e
          = { s with historyStep := handleRedo s.history s.historyStep }) ∧
    (e.key = "y" →
        handleKeyDown s e
          = { s with historyStep := handleRedo s.history s.historyStep }) := by
  have hb : (e.ctrlKey || e.metaKey) = true := by
    rcases hmod with h | h <;> simp [h]
  refine ⟨?_, ?_, ?_⟩
  · intro hk hsh
    unfold handleKeyDown
    rw [hk, hb, hsh]
    simp
  · intro hk hsh
    unfold handleKeyDown
    rw [hk, hb, hsh]
    simp
  · intro hk
    unfold handleKeyDown
    rw [hk, hb]
    simp

/-- C7: when edit mode is off, or focus sits in a text input or textarea, a
key-down on any of the single-key tool/property mnemonics
(v, p, h, e, t, r, c, l, a, `[`, `]`) leaves the whole state unchanged — in
particular the active tool, active shape and tool properties. -/
theorem C7_single_key_shortcuts_gated
    (s : AppState) (e : KeyboardEvent)
    (hkey : e.key = "v" ∨ e.key = "p" ∨ e.key = "h" ∨ e.key = "e" ∨ e.key = "t" ∨
      e.key = "r" ∨ e.key = "c" ∨ e.key = "l" ∨ e.key = "a" ∨
      e.key = "[" ∨ e.key = "]")
    (hgate : s.isEditMode = false ∨ isTextEntryTarget e.target = true) :
    (handleKeyDown s e).activeTool = s.activeTool ∧
    (handleKeyDown s e).activeShape = s.activeShape ∧
    (handleKeyDown s e).toolProperties = s.toolProperties := by
  have hstate : handleKeyDown s e = s := by
    rcases hkey with h|h|h|h|h|h|h|h|h|h|h <;>
      · unfold handleKeyDown
        rw [h]
        rw [if_neg (by simp), if_neg (by simp), if_neg (by simp),
          if_neg (by simp), if_neg (by simp [toLowerCase])]
        rcases hgate with hg | hg <;> simp [hg]
  rw [hstate]
  exact ⟨rfl, rfl, rfl⟩

/-- C8: starting anywhere in `[1/4, 4]`, any sequence of input events — in
particular any number of discrete modifier-zoom shortcuts and modifier-wheel
steps with arbitrary `deltaY` — keeps the scale in `[1/4, 4]`. -/
theorem C8_scale_never_leaves_clamp
    (s : AppState) (events : List InputEvent)
    (h : 1/4 ≤ s.scale ∧ s.scale ≤ 4) :
    1/4 ≤ (events.foldl applyEvent s).scale ∧
      (events.foldl applyEvent s).scale ≤ 4 := by
  induction events generalizing s with
  | nil => exact h
  | cons ev rest ih =>
      rw [List.foldl_cons]
      exact ih _ (applyEvent_scale_bounds s ev h.1 h.2)

/-- C9: starting anywhere in `[1, 100]`, any sequence of input events — in
particular any number of consecutive `[`/`]` presses in edit mode — keeps the
line width in `[1, 100]`; the `[`/`]` arms clamp at the point of mutation. -/
theorem C9_lineWidth_never_leaves_clamp
    (s : AppState) (events : List InputEvent)
    (h : 1 ≤ s.toolProperties.lineWidth ∧ s.toolProperties.lineWidth ≤ 100) :
    1 ≤ ((events.foldl applyEvent s).toolProperties.lineWidth) ∧
      ((events.foldl applyEvent s).toolProperties.lineWidth) ≤ 100 := by
  induction events generalizing s with
  | nil => exact h
  | cons ev rest ih =>
      rw [List.foldl_cons]
      exact ih _ (applyEvent_lineWidth_bounds s ev h.1 h.2)

/-- C10: the modifier-qualified shortcuts are not focus-gated: with ctrl or
meta held, keys `z`, `y`, `=`, `+`, `-` dispatch their undo/redo/zoom
operation for every focus target and every edit-mode value (both are left
universally quantified here, unconstrained by any hypothesis). -/
theorem C10_modifier_shortcuts_ignore_focus
    (s : AppState) (e : KeyboardEvent)
    (hmod : e.ctrlKey = true ∨ e.metaKey = true) :
    (e.key = "z" →
        handleKeyDown s e
          = { s with historyStep :=
                if e.shiftKey then handleRedo s.history s.historyStep
                else handleUndo s.history s.historyStep }) ∧
    (e.key = "y" →
        handleKeyDown s e
          = { s with historyStep := handleRedo s.history s.historyStep }) ∧
    ((e.key = "=" ∨ e.key = "+") →
        handleKeyDown s e = { s with scale := min 4 (s.scale + 1/10) }) ∧
    (e.key = "-" →
        handleKeyDown s e = { s with scale := max (1/4) (s.scale - 1/10) }) := by
  have hb : (e.ctrlKey || e.metaKey) = true := by
    rcases hmod with h | h <;> simp [h]
  refine ⟨?_, ?_, ?_, ?_⟩
  · intro hk
    unfold handleKeyDown
    rw [hk, hb]
    cases hsh : e.shiftKey <;> simp [hsh]
  · intro hk
    unfold handleKeyDown
    rw [hk, hb]
    simp
  · intro hk
    rcases hk with hk | hk <;>
      · unfold handleKeyDown
        rw [hk, hb]
        simp
  · intro hk
    unfold handleKeyDown
    rw [hk, hb]
    simp

/-! ## Witnesses: each claim theorem instantiated at a concrete input -/

/-- Witness for C2: committing onto `[[]]` at step 0. -/
theorem C2_commit_truncates_appends_tail_witness :
    0 < ([[]] : List (List Annotation)).length ∧
    ((handleAnnotationsChange [[]] 0 (fun l => l)).1
        = ([[]] : List (List Annotation)).take 1
            ++ [(fun (l : List Annotation) => l) (currentAnnotations [[]] 0)] ∧
      (handleAnnotationsChange [[]] 0 (fun l => l)).1.length = 2 ∧
      (handleAnnotationsChange [[]] 0 (fun l => l)).2 = 1 ∧
      handleRedo (handleAnnotationsChange [[]] 0 (fun l => l)).1
          (handleAnnotationsChange [[]] 0 (fun l => l)).2
        = (handleAnnotationsChange [[]] 0 (fun l => l)).2 ∧
      currentAnnotations (handleAnnotationsChange [[]] 0 (fun l => l)).1
          (handleAnnotationsChange [[]] 0 (fun l => l)).2
        = (fun (l : List Annotation) => l) (currentAnnotations [[]] 0)) :=
  ⟨by decide, C2_commit_truncates_appends_tail [[]] 0 (fun l => l) (by decide)⟩

/-- Witness for C3: the two-snapshot history at step 1. -/
theorem C3_undo_redo_noop_at_bounds_witness :
    1 < ([[], []] : List (List Annotation)).length ∧
    ((1 = 0 → handleUndo [[], []] 1 = 0) ∧
      (0 < 1 → handleUndo [[], []] 1 = 1 - 1) ∧
      (1 = ([[], []] : List (List Annotation)).length - 1 → handleRedo [[], []] 1 = 1) ∧
      (1 < ([[], []] : List (List Annotation)).length - 1 → handleRedo [[], []] 1 = 1 + 1) ∧
      handleUndo [[], []] 1 < ([[], []] : List (List Annotation)).length ∧
      handleRedo [[], []] 1 < ([[], []] : List (List Annotation)).length ∧
      (∀ (s : AppState) (e : KeyboardEvent), (handleKeyDown s e).history = s.history)) :=
  ⟨by decide, C3_undo_redo_noop_at_bounds [[], []] 1 (by decide)⟩

/-- Witness for C4: undo then redo on the two-snapshot history at step 1. -/
theorem C4_undo_redo_roundtrip_witness :
    (0 < 1 ∧ 1 < ([[], []] : List (List Annotation)).length) ∧
    (handleRedo [[], []] (handleUndo [[], []] 1) = 1 ∧
      currentAnnotations [[], []] (handleRedo [[], []] (handleUndo [[], []] 1))
        = currentAnnotations [[], []] 1) :=
  ⟨⟨by decide, by decide⟩,
    C4_undo_redo_roundtrip [[], []] 1 (by decide) (by decide)⟩

/-- Witness for C5: `activeTool = pen`, press `m` with edit mode off. -/
theorem C5_magnify_toggle_witness :
    ((keyEvent "m" false false false EventTarget.other).key = "m" ∧
      isTextEntryTarget (keyEvent "m" false false false EventTarget.other).target
        = false) ∧
    ((handleKeyDown penState (keyEvent "m" false false false EventTarget.other)).activeTool
        = (if penState.activeTool = ToolType.magnify then
             (if penState.isEditMode then ToolType.select else ToolType.pan)
           else ToolType.magnify) ∧
      (penState.activeTool ≠ ToolType.magnify →
        (handleKeyDown penState
            (keyEvent "m" false false false EventTarget.other)).activeTool
          = ToolType.magnify) ∧
      (penState.activeTool = ToolType.magnify → penState.isEditMode = true →
        (handleKeyDown penState
            (keyEvent "m" false false false EventTarget.other)).activeTool
          = ToolType.select) ∧
      (penState.activeTool = ToolType.magnify → penState.isEditMode = false →
        (handleKeyDown penState
            (keyEvent "m" false false false EventTarget.other)).activeTool
          = ToolType.pan)) :=
  ⟨⟨rfl, rfl⟩,
    C5_magnify_toggle penState (keyEvent "m" false false false EventTarget.other)
      rfl rfl rfl rfl⟩

/-- Witness for C6: ctrl+`z` on the initial state. -/
theorem C6_modifier_undo_redo_precedence_witness :
    ((keyEvent "z" true false false EventTarget.other).ctrlKey = true ∨
      (keyEvent "z" true false false EventTarget.other).metaKey = true) ∧
    (((keyEvent "z" true false false EventTarget.other).key = "z" →
        (keyEvent "z" true false false EventTarget.other).shiftKey = false →
        handleKeyDown initialState (keyEvent "z" true false false EventTarget.other)
          = { initialState with
                historyStep := handleUndo initialState.history initialState.historyStep }) ∧
      ((keyEvent "z" true false false EventTarget.other).key = "z" →
        (keyEvent "z" true false false EventTarget.other).shiftKey = true →
        handleKeyDown initialState (keyEvent "z" true false false EventTarget.other)
          = { initialState with
                historyStep := handleRedo initialState.history initialState.historyStep }) ∧
      ((keyEvent "z" true false false EventTarget.other).key = "y" →
        handleKeyDown initialState (keyEvent "z" true false false EventTarget.other)
          = { initialState with
                historyStep := handleRedo initialState.history initialState.historyStep })) :=
  ⟨Or.inl rfl,
    C6_modifier_undo_redo_precedence initialState
      (keyEvent "z" true false false EventTarget.other) (Or.inl rfl)⟩

/-- Witness for C7: press `e` with focus in a text input (and edit mode off). -/
theorem C7_single_key_shortcuts_gated_witness :
    (initialState.isEditMode = false ∨
      isTextEntryTarget (keyEvent "e" false false false EventTarget.inputElement).target
        = true) ∧
    ((handleKeyDown initialState
          (keyEvent "e" false false false EventTarget.inputElement)).activeTool
        = initialState.activeTool ∧
      (handleKeyDown initialState
          (keyEvent "e" false false false EventTarget.inputElement)).activeShape
        = initialState.activeShape ∧
      (handleKeyDown initialState
          (keyEvent "e" false false false EventTarget.inputElement)).toolProperties
        = initialState.toolProperties) :=
  ⟨Or.inl rfl,
    C7_single_key_shortcuts_gated initialState
      (keyEvent "e" false false false EventTarget.inputElement)
      (by simp [keyEvent]) (Or.inl rfl)⟩

/-- Witness for C8: a ctrl+`=` zoom followed by a large wheel step from scale 1. -/
theorem C8_scale_never_leaves_clamp_witness :
    (1/4 ≤ initialState.scale ∧ initialState.scale ≤ 4) ∧
    (1/4 ≤ (([InputEvent.key (keyEvent "=" true false false EventTarget.other),
        InputEvent.wheel true false 5000].foldl applyEvent initialState)).scale ∧
      (([InputEvent.key (keyEvent "=" true false false EventTarget.other),
        InputEvent.wheel true false 5000].foldl applyEvent initialState)).scale ≤ 4) :=
  ⟨⟨by norm_num [initialState], by norm_num [initialState]⟩,
    C8_scale_never_leaves_clamp initialState
      [InputEvent.key (keyEvent "=" true false false EventTarget.other),
        InputEvent.wheel true false 5000]
      ⟨by norm_num [initialState], by norm_num [initialState]⟩⟩

/-- Witness for C9: two `[` presses in edit mode from line width 2. -/
theorem C9_lineWidth_never_leaves_clamp_witness :
    (1 ≤ editState.toolProperties.lineWidth ∧
      editState.toolProperties.lineWidth ≤ 100) ∧
    (1 ≤ (([InputEvent.key (keyEvent "[" false false false EventTarget.other),
        InputEvent.key (keyEvent "[" false false false EventTarget.other)].foldl
          applyEvent editState)).toolProperties.lineWidth ∧
      (([InputEvent.key (keyEvent "[" false false false EventTarget.other),
        InputEvent.key (keyEvent "[" false false false EventTarget.other)].foldl
          applyEvent editState)).toolProperties.lineWidth ≤ 100) :=
  ⟨⟨by norm_num [editState, initialState, initialProperties],
    by norm_num [editState, initialState, initialProperties]⟩,
    C9_lineWidth_never_leaves_clamp editState
      [InputEvent.key (keyEvent "[" false false false EventTarget.other),
        InputEvent.key (keyEvent "[" false false false EventTarget.other)]
      ⟨by norm_num [editState, initialState, initialProperties],
        by norm_num [editState, initialState, initialProperties]⟩⟩

/-- Witness for C10: ctrl+`-` fires the zoom-out even though focus is in a
text input and edit mode is off. -/
theorem C10_modifier_shortcuts_ignore_focus_witness :
    ((keyEvent "-" true false false EventTarget.inputElement).ctrlKey = true ∨
      (keyEvent "-" true false false EventTarget.inputElement).metaKey = true) ∧
    (((keyEvent "-" true false false EventTarget.inputElement).key = "z" →
        handleKeyDown initialState
            (keyEvent "-" true false false EventTarget.inputElement)
          = { initialState with
                historyStep :=
                  if (keyEvent "-" true false false EventTarget.inputElement).shiftKey
                    then handleRedo initialState.history initialState.historyStep
                  else handleUndo initialState.history initialState.historyStep }) ∧
      ((keyEvent "-" true false false EventTarget.inputElement).key = "y" →
        handleKeyDown initialState
            (keyEvent "-" true false false EventTarget.inputElement)
          = { initialState with
                historyStep := handleRedo initialState.history initialState.historyStep }) ∧
      (((keyEvent "-" true false false EventTarget.inputElement).key = "=" ∨
          (keyEvent "-" true false false EventTarget.inputElement).key = "+") →
        handleKeyDown initialState
            (keyEvent "-" true false false EventTarget.inputElement)
          = { initialState with scale := min 4 (initialState.scale + 1/10) }) ∧
      ((keyEvent "-" true false false EventTarget.inputElement).key = "-" →
        handleKeyDown initialState
            (keyEvent "-" true false false EventTarget.inputElement)
          = { initialState with scale := max (1/4) (initialState.scale - 1/10) })) :=
  ⟨Or.inl rfl,
    C10_modifier_shortcuts_ignore_focus initialState
      (keyEvent "-" true false false EventTarget.inputElement) (Or.inl rfl)⟩

end LuminaApp
